import Mathlib

set_option linter.unusedVariables false

/-!
Shallow embedding of `src/main.py` (MDRD GFR calculator).

The repository exposes one FastAPI endpoint `/calculate` whose handler
`calculate_gfr` evaluates the MDRD equation on a pydantic-validated input
`GFRFormInput` and rounds the result to one decimal place.  The pydantic
model performs the bound checks (age between 18 and 120, serum creatinine
between 0.1 and 15.0, biological sex a literal in {male, female}, race a
boolean); the handler itself is a pure arithmetic function.

Python float arithmetic is modelled with real numbers (the spec mandates a
real power function); `round(x, 1)` is modelled as rounding `10*x` to the
nearest integer and dividing by 10 (the spec accepts either tie-breaking
convention; no value considered here is a tie).  Form/ JSON decoding is
modelled by a raw request carrying the already-typed field values, and the
pydantic field constraints become the explicit `validate` function.
-/

/-- The two values of the `Literal['male', 'female']` pydantic field. -/
inductive Sex where
  | male
  | female
deriving DecidableEq

/-- `GFRFormInput` (src/main.py lines 22-48) after pydantic validation:
`age : int` (ge 18, le 120), `serum_creatinine : float` (ge 0.1, le 15.0),
`biological_sex : Literal['male','female']`, `race_is_black : bool`. -/
structure GFRFormInput where
  age : ℤ
  serum_creatinine : ℚ
  biological_sex : Sex
  race_is_black : Bool

/-- A raw request as it reaches the pydantic boundary: the four fields with
their transport-level types, before the `Field` constraints are checked. -/
structure RawRequest where
  age : ℤ
  serum_creatinine : ℚ
  biological_sex : String
  race_is_black : Bool

/-- Decoding of the `Literal['male', 'female']` field: any other string is a
validation error. -/
def parseSex (s : String) : Option Sex :=
  if s = "male" then some Sex.male
  else if s = "female" then some Sex.female
  else none

/-- The pydantic boundary for `GFRFormInput`: each `Field` constraint of
src/main.py lines 25-48 is checked and the first violated constraint is
reported; a request passing every check yields the typed input. -/
def validate (r : RawRequest) : Except String GFRFormInput :=
  if r.age < 18 then Except.error "age: input should be greater than or equal to 18"
  else if 120 < r.age then Except.error "age: input should be less than or equal to 120"
  else if r.serum_creatinine < 0.1 then
    Except.error "serum_creatinine: input should be greater than or equal to 0.1"
  else if 15.0 < r.serum_creatinine then
    Except.error "serum_creatinine: input should be less than or equal to 15.0"
  else
    match parseSex r.biological_sex with
    | some s => Except.ok ⟨r.age, r.serum_creatinine, s, r.race_is_black⟩
    | none => Except.error "biological_sex: input should be male or female"

/-- All four field constraints of `GFRFormInput` hold for the raw request. -/
def inBounds (r : RawRequest) : Prop :=
  18 ≤ r.age ∧ r.age ≤ 120 ∧ 0.1 ≤ r.serum_creatinine ∧ r.serum_creatinine ≤ 15.0 ∧
    (r.biological_sex = "male" ∨ r.biological_sex = "female")

instance (r : RawRequest) : Decidable (inBounds r) := by
  unfold inBounds; infer_instance

/-- `round(x, 1)` of src/main.py line 91: round to one decimal place. -/
noncomputable def round1 (x : ℝ) : ℝ :=
  (round (10 * x) : ℤ) / 10

/-- `gender_factor` of src/main.py line 78 (`.lower()` is the identity on the
two literals that pass validation). -/
noncomputable def gender_factor (s : Sex) : ℝ :=
  if s = Sex.female then 0.742 else 1.0

/-- `race_factor` of src/main.py line 79. -/
noncomputable def race_factor (b : Bool) : ℝ :=
  if b then 1.212 else 1.0

/-- The MDRD expression of src/main.py lines 82-88, before rounding:
`175 * sc ** -1.154 * age ** -0.203 * gender_factor * race_factor`. -/
noncomputable def gfrRaw (serum_creatinine age : ℝ) (s : Sex) (b : Bool) : ℝ :=
  175 * serum_creatinine ^ (-1.154 : ℝ) * age ^ (-0.203 : ℝ) *
    gender_factor s * race_factor b

/-- The calculator of spec §4.1: the MDRD expression rounded to one decimal
place. -/
noncomputable def compute (serum_creatinine age : ℝ) (s : Sex) (b : Bool) : ℝ :=
  round1 (gfrRaw serum_creatinine age s b)

/-- The endpoint handler `calculate_gfr` (src/main.py lines 66-93) on a
validated input. -/
noncomputable def calculate_gfr (data : GFRFormInput) : ℝ :=
  round1 (175 * (data.serum_creatinine : ℝ) ^ (-1.154 : ℝ) * (data.age : ℝ) ^ (-0.203 : ℝ) *
    gender_factor data.biological_sex * race_factor data.race_is_black)

/-- The route `/calculate`: pydantic validation, then the handler. -/
noncomputable def handle (r : RawRequest) : Except String ℝ :=
  (validate r).map calculate_gfr

lemma calculate_gfr_eq_compute (d : GFRFormInput) :
    calculate_gfr d =
      compute (d.serum_creatinine : ℝ) (d.age : ℝ) d.biological_sex d.race_is_black := rfl

/-! ### Generic helpers: rounding and rational bounds on real powers -/

lemma round_eq_of (x : ℝ) (n : ℤ) (h1 : (n : ℝ) - 1/2 ≤ x) (h2 : x < (n : ℝ) + 1/2) :
    round x = n := by
  rw [round_eq, Int.floor_eq_iff]
  constructor <;> linarith

lemma round1_eq_of (x : ℝ) (n : ℤ) (h1 : (n : ℝ) - 1/2 ≤ 10 * x)
    (h2 : 10 * x < (n : ℝ) + 1/2) : round1 x = (n : ℝ) / 10 := by
  unfold round1
  rw [round_eq_of (10 * x) n h1 h2]

lemma round1_mono {x y : ℝ} (h : x ≤ y) : round1 x ≤ round1 y := by
  unfold round1
  have h10 : (10 : ℝ) * x + 1/2 ≤ 10 * y + 1/2 := by linarith
  have hr : round (10 * x) ≤ round (10 * y) := by
    rw [round_eq, round_eq]
    exact Int.floor_mono h10
  have hr' : ((round (10 * x) : ℤ) : ℝ) ≤ ((round (10 * y) : ℤ) : ℝ) := by
    exact_mod_cast hr
  linarith

lemma rpow_ratio_pow (x : ℝ) (hx : 0 ≤ x) (p q : ℕ) (hq : q ≠ 0) :
    (x ^ ((p : ℝ) / (q : ℝ))) ^ q = x ^ p := by
  have hq' : ((q : ℝ)) ≠ 0 := by exact_mod_cast hq
  rw [← Real.rpow_natCast (x ^ ((p : ℝ) / (q : ℝ))) q, ← Real.rpow_mul hx,
    div_mul_cancel₀ _ hq', Real.rpow_natCast]

lemma lt_rpow_of_pow_lt (x c : ℝ) (p q : ℕ) (e : ℝ) (hx : 0 ≤ x) (_hc : 0 ≤ c)
    (hq : q ≠ 0) (he : e = (p : ℝ) / (q : ℝ)) (h : c ^ q < x ^ p) : c < x ^ e := by
  subst he
  by_contra hle
  push_neg at hle
  have : (x ^ ((p : ℝ) / (q : ℝ))) ^ q ≤ c ^ q :=
    pow_le_pow_left₀ (Real.rpow_nonneg hx _) hle q
  rw [rpow_ratio_pow x hx p q hq] at this
  linarith

lemma rpow_lt_of_pow_lt (x c : ℝ) (p q : ℕ) (e : ℝ) (hx : 0 ≤ x) (hc : 0 ≤ c)
    (hq : q ≠ 0) (he : e = (p : ℝ) / (q : ℝ)) (h : x ^ p < c ^ q) : x ^ e < c := by
  subst he
  by_contra hle
  push_neg at hle
  have : c ^ q ≤ (x ^ ((p : ℝ) / (q : ℝ))) ^ q := pow_le_pow_left₀ hc hle q
  rw [rpow_ratio_pow x hx p q hq] at this
  linarith

/-! ### Concrete rational bounds on the powers appearing in the claims.

The exponents of the MDRD formula are the rationals `1.154 = 577/500` and
`0.203 = 203/1000`, so every bound reduces to an exact integer-power
comparison that `norm_num` settles. -/

lemma pow12_lo : (1.2341 : ℝ) < (1.2 : ℝ) ^ (1.154 : ℝ) := by
  apply lt_rpow_of_pow_lt 1.2 1.2341 577 500 _ (by norm_num) (by norm_num) (by norm_num)
    (by norm_num)
  norm_num

lemma pow12_hi : (1.2 : ℝ) ^ (1.154 : ℝ) < 1.2343 := by
  apply rpow_lt_of_pow_lt 1.2 1.2343 577 500 _ (by norm_num) (by norm_num) (by norm_num)
    (by norm_num)
  norm_num

lemma pow45_lo : (2.1655 : ℝ) < (45 : ℝ) ^ (0.203 : ℝ) := by
  apply lt_rpow_of_pow_lt 45 2.1655 203 1000 _ (by norm_num) (by norm_num) (by norm_num)
    (by norm_num)
  norm_num

lemma pow45_hi : (45 : ℝ) ^ (0.203 : ℝ) < 2.1659 := by
  apply rpow_lt_of_pow_lt 45 2.1659 203 1000 _ (by norm_num) (by norm_num) (by norm_num)
    (by norm_num)
  norm_num

lemma pow30_lo : (1.9944 : ℝ) < (30 : ℝ) ^ (0.203 : ℝ) := by
  apply lt_rpow_of_pow_lt 30 1.9944 203 1000 _ (by norm_num) (by norm_num) (by norm_num)
    (by norm_num)
  norm_num

lemma pow30_hi : (30 : ℝ) ^ (0.203 : ℝ) < 1.9948 := by
  apply rpow_lt_of_pow_lt 30 1.9948 203 1000 _ (by norm_num) (by norm_num) (by norm_num)
    (by norm_num)
  norm_num

lemma pow15_lo : (22.74 : ℝ) < (15 : ℝ) ^ (1.154 : ℝ) := by
  apply lt_rpow_of_pow_lt 15 22.74 577 500 _ (by norm_num) (by norm_num) (by norm_num)
    (by norm_num)
  norm_num

lemma pow15_hi : (15 : ℝ) ^ (1.154 : ℝ) < 22.78 := by
  apply rpow_lt_of_pow_lt 15 22.78 577 500 _ (by norm_num) (by norm_num) (by norm_num)
    (by norm_num)
  norm_num

lemma pow110_lo : (2.595 : ℝ) < (110 : ℝ) ^ (0.203 : ℝ) := by
  apply lt_rpow_of_pow_lt 110 2.595 203 1000 _ (by norm_num) (by norm_num) (by norm_num)
    (by norm_num)
  norm_num

lemma pow110_hi : (110 : ℝ) ^ (0.203 : ℝ) < 2.598 := by
  apply rpow_lt_of_pow_lt 110 2.598 203 1000 _ (by norm_num) (by norm_num) (by norm_num)
    (by norm_num)
  norm_num

lemma pow111_lo : (2.600 : ℝ) < (111 : ℝ) ^ (0.203 : ℝ) := by
  apply lt_rpow_of_pow_lt 111 2.600 203 1000 _ (by norm_num) (by norm_num) (by norm_num)
    (by norm_num)
  norm_num

lemma pow111_hi : (111 : ℝ) ^ (0.203 : ℝ) < 2.603 := by
  apply rpow_lt_of_pow_lt 111 2.603 203 1000 _ (by norm_num) (by norm_num) (by norm_num)
    (by norm_num)
  norm_num

/-! ### Evaluating the calculator at concrete inputs -/

lemma gender_factor_male : gender_factor Sex.male = 1 := by
  rw [gender_factor, if_neg (by decide : ¬Sex.male = Sex.female)]; norm_num

lemma gender_factor_female : gender_factor Sex.female = 0.742 := by
  rw [gender_factor, if_pos rfl]

lemma race_factor_false : race_factor false = 1 := by
  rw [race_factor]; norm_num

lemma race_factor_true : race_factor true = 1.212 := by
  rw [race_factor, if_pos rfl]

lemma gfrRaw_shape (sc a : ℝ) (hsc : 0 ≤ sc) (ha : 0 ≤ a) (s : Sex) (b : Bool) :
    gfrRaw sc a s b =
      (175 * gender_factor s * race_factor b) * (sc ^ (1.154 : ℝ) * a ^ (0.203 : ℝ))⁻¹ := by
  unfold gfrRaw
  rw [Real.rpow_neg hsc, Real.rpow_neg ha, mul_inv]
  ring

lemma round1_inv_eq (T D dlo dhi : ℝ) (n : ℤ) (hn : 0 < n) (hdlo : 0 < dlo)
    (hD1 : dlo < D) (hD2 : D < dhi)
    (hlo : ((n : ℝ) - 1/2) * dhi ≤ 10 * T) (hhi : 10 * T < ((n : ℝ) + 1/2) * dlo) :
    round1 (T * D⁻¹) = (n : ℝ) / 10 := by
  have hDpos : 0 < D := lt_trans hdlo hD1
  have hn1 : (1:ℤ) ≤ n := hn
  have hn' : (1:ℝ) ≤ (n : ℝ) := by exact_mod_cast hn1
  have hrw : (10:ℝ) * (T * D⁻¹) = (10 * T) / D := by
    rw [div_eq_mul_inv]; ring
  apply round1_eq_of
  · rw [hrw, le_div_iff₀ hDpos]
    calc ((n:ℝ) - 1/2) * D ≤ ((n:ℝ) - 1/2) * dhi := by
          apply mul_le_mul_of_nonneg_left (le_of_lt hD2); linarith
      _ ≤ 10 * T := hlo
  · rw [hrw, div_lt_iff₀ hDpos]
    calc 10 * T < ((n:ℝ) + 1/2) * dlo := hhi
      _ ≤ ((n:ℝ) + 1/2) * D := by
          apply mul_le_mul_of_nonneg_left (le_of_lt hD1); linarith

lemma compute_12_45 : compute 1.2 45 Sex.male false = 65.5 := by
  have hApos : (0:ℝ) < (1.2 : ℝ) ^ (1.154 : ℝ) := Real.rpow_pos_of_pos (by norm_num) _
  have hBpos : (0:ℝ) < (45 : ℝ) ^ (0.203 : ℝ) := Real.rpow_pos_of_pos (by norm_num) _
  have hD1 : (2.6724 : ℝ) < (1.2 : ℝ) ^ (1.154 : ℝ) * (45 : ℝ) ^ (0.203 : ℝ) := by
    have := mul_lt_mul'' pow12_lo pow45_lo (by norm_num) (by norm_num)
    linarith
  have hD2 : (1.2 : ℝ) ^ (1.154 : ℝ) * (45 : ℝ) ^ (0.203 : ℝ) < 2.6734 := by
    have := mul_lt_mul'' pow12_hi pow45_hi (le_of_lt hApos) (le_of_lt hBpos)
    linarith
  unfold compute
  rw [gfrRaw_shape 1.2 45 (by norm_num) (by norm_num), gender_factor_male, race_factor_false,
    mul_one, mul_one,
    round1_inv_eq 175 _ 2.6724 2.6734 655 (by norm_num) (by norm_num) hD1 hD2
      (by push_cast; norm_num) (by push_cast; norm_num)]
  push_cast; norm_num

lemma compute_1_30_male : compute 1 30 Sex.male false = 87.7 := by
  have hD1 := pow30_lo
  have hD2 := pow30_hi
  unfold compute
  rw [gfrRaw_shape 1 30 (by norm_num) (by norm_num), gender_factor_male, race_factor_false,
    mul_one, mul_one, Real.one_rpow, one_mul,
    round1_inv_eq 175 _ 1.9944 1.9948 877 (by norm_num) (by norm_num) hD1 hD2
      (by push_cast; norm_num) (by push_cast; norm_num)]
  push_cast; norm_num

lemma compute_1_30_female : compute 1 30 Sex.female false = 65.1 := by
  have hD1 := pow30_lo
  have hD2 := pow30_hi
  unfold compute
  rw [gfrRaw_shape 1 30 (by norm_num) (by norm_num), gender_factor_female, race_factor_false,
    mul_one, Real.one_rpow, one_mul,
    round1_inv_eq (175 * 0.742) _ 1.9944 1.9948 651 (by norm_num) (by norm_num) hD1 hD2
      (by push_cast; norm_num) (by push_cast; norm_num)]
  push_cast; norm_num

lemma compute_1_30_black : compute 1 30 Sex.male true = 106.3 := by
  have hD1 := pow30_lo
  have hD2 := pow30_hi
  unfold compute
  rw [gfrRaw_shape 1 30 (by norm_num) (by norm_num), gender_factor_male, race_factor_true,
    mul_one, Real.one_rpow, one_mul,
    round1_inv_eq (175 * 1.212) _ 1.9944 1.9948 1063 (by norm_num) (by norm_num) hD1 hD2
      (by push_cast; norm_num) (by push_cast; norm_num)]
  push_cast; norm_num

lemma one_le_pow_eps : (1 : ℝ) ≤ (1.000001 : ℝ) ^ (1.154 : ℝ) := by
  calc (1:ℝ) = (1.000001 : ℝ) ^ (0 : ℝ) := (Real.rpow_zero _).symm
    _ ≤ (1.000001 : ℝ) ^ (1.154 : ℝ) :=
        Real.rpow_le_rpow_of_exponent_le (by norm_num) (by norm_num)

lemma pow_eps_le : (1.000001 : ℝ) ^ (1.154 : ℝ) ≤ 1.0000024 := by
  calc (1.000001 : ℝ) ^ (1.154 : ℝ) ≤ (1.000001 : ℝ) ^ (2 : ℝ) :=
        Real.rpow_le_rpow_of_exponent_le (by norm_num) (by norm_num)
    _ = (1.000001 : ℝ) ^ (2 : ℕ) := by
        rw [show (2:ℝ) = ((2:ℕ) : ℝ) by norm_num, Real.rpow_natCast]
    _ ≤ 1.0000024 := by norm_num

lemma compute_eps_30_male : compute 1.000001 30 Sex.male false = 87.7 := by
  have hB1 := pow30_lo
  have hB2 := pow30_hi
  have hBpos : (0:ℝ) < (30 : ℝ) ^ (0.203 : ℝ) := Real.rpow_pos_of_pos (by norm_num) _
  have hApos : (0:ℝ) < (1.000001 : ℝ) ^ (1.154 : ℝ) := Real.rpow_pos_of_pos (by norm_num) _
  have hD1 : (1.9944 : ℝ) < (1.000001 : ℝ) ^ (1.154 : ℝ) * (30 : ℝ) ^ (0.203 : ℝ) := by
    nlinarith [one_le_pow_eps, hB1, hBpos]
  have hD2 : (1.000001 : ℝ) ^ (1.154 : ℝ) * (30 : ℝ) ^ (0.203 : ℝ) < 1.9949 := by
    nlinarith [pow_eps_le, hB2, hBpos, hApos]
  unfold compute
  rw [gfrRaw_shape 1.000001 30 (by norm_num) (by norm_num), gender_factor_male,
    race_factor_false, mul_one, mul_one,
    round1_inv_eq 175 _ 1.9944 1.9949 877 (by norm_num) (by norm_num) hD1 hD2
      (by push_cast; norm_num) (by push_cast; norm_num)]
  push_cast; norm_num

lemma compute_15_110_female : compute 15 110 Sex.female false = 2.2 := by
  have hApos : (0:ℝ) < (15 : ℝ) ^ (1.154 : ℝ) := Real.rpow_pos_of_pos (by norm_num) _
  have hBpos : (0:ℝ) < (110 : ℝ) ^ (0.203 : ℝ) := Real.rpow_pos_of_pos (by norm_num) _
  have hD1 : (59.01 : ℝ) < (15 : ℝ) ^ (1.154 : ℝ) * (110 : ℝ) ^ (0.203 : ℝ) := by
    have := mul_lt_mul'' pow15_lo pow110_lo (by norm_num) (by norm_num)
    linarith
  have hD2 : (15 : ℝ) ^ (1.154 : ℝ) * (110 : ℝ) ^ (0.203 : ℝ) < 59.19 := by
    have := mul_lt_mul'' pow15_hi pow110_hi (le_of_lt hApos) (le_of_lt hBpos)
    linarith
  unfold compute
  rw [gfrRaw_shape 15 110 (by norm_num) (by norm_num), gender_factor_female, race_factor_false,
    mul_one,
    round1_inv_eq (175 * 0.742) _ 59.01 59.19 22 (by norm_num) (by norm_num) hD1 hD2
      (by push_cast; norm_num) (by push_cast; norm_num)]
  push_cast; norm_num

lemma compute_15_111_female : compute 15 111 Sex.female false = 2.2 := by
  have hApos : (0:ℝ) < (15 : ℝ) ^ (1.154 : ℝ) := Real.rpow_pos_of_pos (by norm_num) _
  have hBpos : (0:ℝ) < (111 : ℝ) ^ (0.203 : ℝ) := Real.rpow_pos_of_pos (by norm_num) _
  have hD1 : (59.12 : ℝ) < (15 : ℝ) ^ (1.154 : ℝ) * (111 : ℝ) ^ (0.203 : ℝ) := by
    have := mul_lt_mul'' pow15_lo pow111_lo (by norm_num) (by norm_num)
    linarith
  have hD2 : (15 : ℝ) ^ (1.154 : ℝ) * (111 : ℝ) ^ (0.203 : ℝ) < 59.30 := by
    have := mul_lt_mul'' pow15_hi pow111_hi (le_of_lt hApos) (le_of_lt hBpos)
    linarith
  unfold compute
  rw [gfrRaw_shape 15 111 (by norm_num) (by norm_num), gender_factor_female, race_factor_false,
    mul_one,
    round1_inv_eq (175 * 0.742) _ 59.12 59.30 22 (by norm_num) (by norm_num) hD1 hD2
      (by push_cast; norm_num) (by push_cast; norm_num)]
  push_cast; norm_num

/-! ### Structural facts: factor positivity and strict antitonicity of the raw value -/

lemma gender_factor_pos (s : Sex) : 0 < gender_factor s := by
  cases s
  · rw [gender_factor_male]; norm_num
  · rw [gender_factor_female]; norm_num

lemma race_factor_pos (b : Bool) : 0 < race_factor b := by
  cases b
  · rw [race_factor_false]; norm_num
  · rw [race_factor_true]; norm_num

lemma rpow_neg_anti {x y e : ℝ} (hx : 0 < x) (hxy : x < y) (he : 0 < e) :
    y ^ (-e) < x ^ (-e) := by
  have hy : (0:ℝ) < y := lt_trans hx hxy
  rw [Real.rpow_neg (le_of_lt hx), Real.rpow_neg (le_of_lt hy)]
  exact inv_strictAnti₀ (Real.rpow_pos_of_pos hx e)
    (Real.rpow_lt_rpow (le_of_lt hx) hxy he)

lemma gfrRaw_sc_strict {c1 c2 a : ℝ} (hc1 : 0 < c1) (h12 : c1 < c2) (ha : 0 < a)
    (s : Sex) (b : Bool) : gfrRaw c2 a s b < gfrRaw c1 a s b := by
  unfold gfrRaw
  have hpow : c2 ^ (-1.154:ℝ) < c1 ^ (-1.154:ℝ) := by
    have := rpow_neg_anti hc1 h12 (show (0:ℝ) < 1.154 by norm_num)
    simpa using this
  have hapos : (0:ℝ) < a ^ (-0.203:ℝ) := Real.rpow_pos_of_pos ha _
  have hkey : 0 < (c1 ^ (-1.154:ℝ) - c2 ^ (-1.154:ℝ)) * a ^ (-0.203:ℝ) *
      gender_factor s * race_factor b :=
    mul_pos (mul_pos (mul_pos (sub_pos.mpr hpow) hapos) (gender_factor_pos s))
      (race_factor_pos b)
  nlinarith [hkey]

lemma gfrRaw_age_strict {c a1 a2 : ℝ} (hc : 0 < c) (ha1 : 0 < a1) (h12 : a1 < a2)
    (s : Sex) (b : Bool) : gfrRaw c a2 s b < gfrRaw c a1 s b := by
  unfold gfrRaw
  have hpow : a2 ^ (-0.203:ℝ) < a1 ^ (-0.203:ℝ) := by
    have := rpow_neg_anti ha1 h12 (show (0:ℝ) < 0.203 by norm_num)
    simpa using this
  have hcpos : (0:ℝ) < c ^ (-1.154:ℝ) := Real.rpow_pos_of_pos hc _
  have hkey : 0 < c ^ (-1.154:ℝ) * (a1 ^ (-0.203:ℝ) - a2 ^ (-0.203:ℝ)) *
      gender_factor s * race_factor b :=
    mul_pos (mul_pos (mul_pos hcpos (sub_pos.mpr hpow)) (gender_factor_pos s))
      (race_factor_pos b)
  nlinarith [hkey]

/-! ### Validation lemmas -/

lemma parseSex_male : parseSex "male" = some Sex.male := rfl

lemma parseSex_female : parseSex "female" = some Sex.female := rfl

lemma validate_ok_of_inBounds (r : RawRequest) (h : inBounds r) :
    ∃ d, validate r = Except.ok d := by
  obtain ⟨h1, h2, h3, h4, h5⟩ := h
  unfold validate
  rw [if_neg (by omega), if_neg (by omega), if_neg (not_lt.mpr h3), if_neg (not_lt.mpr h4)]
  rcases h5 with h5 | h5 <;> rw [h5]
  · rw [parseSex_male]; exact ⟨_, rfl⟩
  · rw [parseSex_female]; exact ⟨_, rfl⟩

lemma validate_error_of_not_inBounds (r : RawRequest) (h : ¬ inBounds r) :
    ∃ e, validate r = Except.error e := by
  unfold validate
  split_ifs with h1 h2 h3 h4
  · exact ⟨_, rfl⟩
  · exact ⟨_, rfl⟩
  · exact ⟨_, rfl⟩
  · exact ⟨_, rfl⟩
  · cases hp : parseSex r.biological_sex with
    | none => exact ⟨_, rfl⟩
    | some s =>
        exfalso
        apply h
        refine ⟨by omega, by omega, le_of_not_lt h3, le_of_not_lt h4, ?_⟩
        unfold parseSex at hp
        split_ifs at hp with hm hf
        · exact Or.inl hm
        · exact Or.inr hf

lemma handle_ok_of_inBounds (r : RawRequest) (h : inBounds r) :
    ∃ y, handle r = Except.ok y := by
  obtain ⟨d, hd⟩ := validate_ok_of_inBounds r h
  exact ⟨calculate_gfr d, by rw [handle, hd]; rfl⟩

lemma handle_error_of_not_inBounds (r : RawRequest) (h : ¬ inBounds r) :
    ∃ e, validate r = Except.error e ∧ handle r = Except.error e := by
  obtain ⟨e, he⟩ := validate_error_of_not_inBounds r h
  exact ⟨e, he, by rw [handle, he]; rfl⟩

/-! ### The claims -/

/-- C1: for every validated input (serum creatinine in [0.1, 15.0], age in [18, 120],
a biological sex and a race flag), `calculate_gfr` returns
`round(175 * sc^-1.154 * age^-0.203 * sex_factor * race_factor, 1)` where the sex
factor is 0.742 for female and 1.0 otherwise and the race factor is 1.212 when
`race_is_black` and 1.0 otherwise. -/
theorem C1_formula (d : GFRFormInput) (hsc1 : (0.1 : ℚ) ≤ d.serum_creatinine)
    (hsc2 : d.serum_creatinine ≤ 15.0) (ha1 : (18 : ℤ) ≤ d.age) (ha2 : d.age ≤ 120) :
    calculate_gfr d =
      round1 (175 * (d.serum_creatinine : ℝ) ^ (-1.154 : ℝ) * (d.age : ℝ) ^ (-0.203 : ℝ) *
        (if d.biological_sex = Sex.female then 0.742 else 1.0) *
        (if d.race_is_black then 1.212 else 1.0)) := rfl

theorem C1_formula_witness :
    calculate_gfr ⟨45, 1.2, Sex.male, false⟩ =
      round1 (175 * ((1.2 : ℚ) : ℝ) ^ (-1.154 : ℝ) * ((45 : ℤ) : ℝ) ^ (-0.203 : ℝ) *
        (if Sex.male = Sex.female then 0.742 else 1.0) * (if false then 1.212 else 1.0)) :=
  C1_formula ⟨45, 1.2, Sex.male, false⟩ (by norm_num) (by norm_num) (by norm_num) (by norm_num)

/-- C2: a request with a field outside its declared bounds or enumerated set is
rejected by the pydantic boundary (the calculator is never invoked), and a request
with every field in range receives a numeric result; in particular age 150, serum
creatinine 0 and biological sex "unknown" are rejected. -/
theorem C2_validation :
    (∀ r : RawRequest, inBounds r → ∃ y, handle r = Except.ok y) ∧
    (∀ r : RawRequest, ¬ inBounds r →
      ∃ e, validate r = Except.error e ∧ handle r = Except.error e) ∧
    (∀ r : RawRequest, r.age = 150 → ∃ e, validate r = Except.error e) ∧
    (∀ r : RawRequest, r.serum_creatinine = 0 → ∃ e, validate r = Except.error e) ∧
    (∀ r : RawRequest, r.biological_sex = "unknown" → ∃ e, validate r = Except.error e) := by
  refine ⟨handle_ok_of_inBounds, handle_error_of_not_inBounds, ?_, ?_, ?_⟩
  · intro r hage
    apply validate_error_of_not_inBounds
    intro hb
    obtain ⟨_, h2, _⟩ := hb
    omega
  · intro r hsc
    apply validate_error_of_not_inBounds
    intro hb
    obtain ⟨_, _, h3, _⟩ := hb
    rw [hsc] at h3
    norm_num at h3
  · intro r hsex
    apply validate_error_of_not_inBounds
    intro hb
    obtain ⟨_, _, _, _, h5⟩ := hb
    rw [hsex] at h5
    rcases h5 with h | h <;> exact absurd h (by decide)

theorem C2_validation_witness :
    (∃ y, handle ⟨45, 1.2, "male", false⟩ = Except.ok y) ∧
    (∃ e, validate ⟨150, 1.2, "male", false⟩ = Except.error e) ∧
    (∃ e, validate ⟨45, 0, "male", false⟩ = Except.error e) ∧
    (∃ e, validate ⟨45, 1.2, "unknown", false⟩ = Except.error e) :=
  ⟨C2_validation.1 _ (by norm_num [inBounds]), C2_validation.2.2.1 _ rfl,
    C2_validation.2.2.2.1 _ rfl, C2_validation.2.2.2.2 _ rfl⟩

/-- C3 counterexample: at (serum creatinine 1.2, age 45, male, non-black) the code
computes 65.5, which is below the claimed range 66.6 - 66.8, and at
(1.0, 30, male, non-black) it computes 87.7, far from the claimed 94.5. -/
theorem C3_literals_cex :
    ¬ (66.6 ≤ compute 1.2 45 Sex.male false ∧ compute 1.2 45 Sex.male false ≤ 66.8) ∧
    compute 1 30 Sex.male false < 94 := by
  constructor
  · rw [compute_12_45]; intro h; have := h.1; norm_num at this
  · rw [compute_1_30_male]; norm_num

/-- C3 amended: the computed eGFR at (serum creatinine 1.2, age 45, male, non-black)
is 65.5, and at (serum creatinine 1.0, age 30, male, non-black) it is 87.7. -/
theorem C3_literal_values :
    compute 1.2 45 Sex.male false = 65.5 ∧ compute 1 30 Sex.male false = 87.7 :=
  ⟨compute_12_45, compute_1_30_male⟩

/-- C4 counterexample: at the valid input (serum creatinine 1, age 30) the rounded
female result 65.1 differs from the rounded male result times 0.742, which is
87.7 * 0.742 = 65.0734. -/
theorem C4_sex_factor_cex :
    (0.1 : ℝ) ≤ 1 ∧ (1 : ℝ) ≤ 15 ∧ (18 : ℝ) ≤ 30 ∧ (30 : ℝ) ≤ 120 ∧
      compute 1 30 Sex.female false ≠ compute 1 30 Sex.male false * 0.742 := by
  refine ⟨by norm_num, by norm_num, by norm_num, by norm_num, ?_⟩
  rw [compute_1_30_female, compute_1_30_male]
  norm_num

/-- C4 amended: before the final rounding, the female result equals the male result
times 0.742 for every valid creatinine and age (after rounding the two sides can
differ, as the counterexample shows). -/
theorem C4_sex_factor (c a : ℝ) (hc1 : 0.1 ≤ c) (hc2 : c ≤ 15) (ha1 : 18 ≤ a)
    (ha2 : a ≤ 120) :
    gfrRaw c a Sex.female false = gfrRaw c a Sex.male false * 0.742 := by
  unfold gfrRaw
  rw [gender_factor_female, gender_factor_male]
  ring

theorem C4_sex_factor_witness :
    gfrRaw 1 30 Sex.female false = gfrRaw 1 30 Sex.male false * 0.742 :=
  C4_sex_factor 1 30 (by norm_num) (by norm_num) (by norm_num) (by norm_num)

/-- C5 counterexample: at the valid input (serum creatinine 1, age 30) the rounded
black-race result 106.3 differs from the rounded non-black result times 1.212,
which is 87.7 * 1.212 = 106.2924. -/
theorem C5_race_factor_cex :
    (0.1 : ℝ) ≤ 1 ∧ (1 : ℝ) ≤ 15 ∧ (18 : ℝ) ≤ 30 ∧ (30 : ℝ) ≤ 120 ∧
      compute 1 30 Sex.male true ≠ compute 1 30 Sex.male false * 1.212 := by
  refine ⟨by norm_num, by norm_num, by norm_num, by norm_num, ?_⟩
  rw [compute_1_30_black, compute_1_30_male]
  norm_num

/-- C5 amended: before the final rounding, the black-race result equals the
non-black result times 1.212 for every valid creatinine and age (after rounding
the two sides can differ, as the counterexample shows). -/
theorem C5_race_factor (c a : ℝ) (hc1 : 0.1 ≤ c) (hc2 : c ≤ 15) (ha1 : 18 ≤ a)
    (ha2 : a ≤ 120) :
    gfrRaw c a Sex.male true = gfrRaw c a Sex.male false * 1.212 := by
  unfold gfrRaw
  rw [race_factor_true, race_factor_false]
  ring

theorem C5_race_factor_witness :
    gfrRaw 1 30 Sex.male true = gfrRaw 1 30 Sex.male false * 1.212 :=
  C5_race_factor 1 30 (by norm_num) (by norm_num) (by norm_num) (by norm_num)

/-- C6 counterexample: the valid pair 1 < 1.000001 of creatinine values yields the
same rounded output 87.7 at age 30, male, non-black, so the rounded result is not
strictly decreasing in serum creatinine. -/
theorem C6_strict_sc_cex :
    (0.1 : ℝ) ≤ 1 ∧ (1 : ℝ) < 1.000001 ∧ (1.000001 : ℝ) ≤ 15 ∧
      ¬ (compute 1.000001 30 Sex.male false < compute 1 30 Sex.male false) := by
  refine ⟨by norm_num, by norm_num, by norm_num, ?_⟩
  rw [compute_eps_30_male, compute_1_30_male]
  norm_num

/-- C6 amended: holding age, sex and race fixed, the rounded result is weakly
decreasing in serum creatinine over the accepted range, and the unrounded MDRD
value is strictly decreasing. -/
theorem C6_sc_decreasing :
    (∀ (c1 c2 a : ℝ) (s : Sex) (b : Bool), 0.1 ≤ c1 → c1 ≤ c2 → c2 ≤ 15 →
      18 ≤ a → a ≤ 120 → compute c2 a s b ≤ compute c1 a s b) ∧
    (∀ (c1 c2 a : ℝ) (s : Sex) (b : Bool), 0.1 ≤ c1 → c1 < c2 → c2 ≤ 15 →
      18 ≤ a → a ≤ 120 → gfrRaw c2 a s b < gfrRaw c1 a s b) := by
  constructor
  · intro c1 c2 a s b h1 h12 h2 ha1 ha2
    rcases eq_or_lt_of_le h12 with h | h
    · rw [h]
    · exact round1_mono (le_of_lt (gfrRaw_sc_strict (by linarith) h (by linarith) s b))
  · intro c1 c2 a s b h1 h12 h2 ha1 ha2
    exact gfrRaw_sc_strict (by linarith) h12 (by linarith) s b

theorem C6_sc_decreasing_witness :
    compute 2 30 Sex.male false ≤ compute 1 30 Sex.male false ∧
    gfrRaw 2 30 Sex.male false < gfrRaw 1 30 Sex.male false :=
  ⟨C6_sc_decreasing.1 1 2 30 Sex.male false (by norm_num) (by norm_num) (by norm_num)
      (by norm_num) (by norm_num),
    C6_sc_decreasing.2 1 2 30 Sex.male false (by norm_num) (by norm_num) (by norm_num)
      (by norm_num) (by norm_num)⟩

/-- C7 counterexample: the valid pair of ages 110 < 111 yields the same rounded
output 2.2 at serum creatinine 15, female, non-black, so the rounded result is not
strictly decreasing in age. -/
theorem C7_strict_age_cex :
    (18 : ℝ) ≤ 110 ∧ (110 : ℝ) < 111 ∧ (111 : ℝ) ≤ 120 ∧
      ¬ (compute 15 111 Sex.female false < compute 15 110 Sex.female false) := by
  refine ⟨by norm_num, by norm_num, by norm_num, ?_⟩
  rw [compute_15_111_female, compute_15_110_female]
  norm_num

/-- C7 amended: holding creatinine, sex and race fixed, the rounded result is
weakly decreasing in age over the accepted range, and the unrounded MDRD value is
strictly decreasing. -/
theorem C7_age_decreasing :
    (∀ (c a1 a2 : ℝ) (s : Sex) (b : Bool), 0.1 ≤ c → c ≤ 15 → 18 ≤ a1 → a1 ≤ a2 →
      a2 ≤ 120 → compute c a2 s b ≤ compute c a1 s b) ∧
    (∀ (c a1 a2 : ℝ) (s : Sex) (b : Bool), 0.1 ≤ c → c ≤ 15 → 18 ≤ a1 → a1 < a2 →
      a2 ≤ 120 → gfrRaw c a2 s b < gfrRaw c a1 s b) := by
  constructor
  · intro c a1 a2 s b hc1 hc2 h1 h12 h2
    rcases eq_or_lt_of_le h12 with h | h
    · rw [h]
    · exact round1_mono (le_of_lt (gfrRaw_age_strict (by linarith) (by linarith) h s b))
  · intro c a1 a2 s b hc1 hc2 h1 h12 h2
    exact gfrRaw_age_strict (by linarith) (by linarith) h12 s b

theorem C7_age_decreasing_witness :
    compute 1 31 Sex.male false ≤ compute 1 30 Sex.male false ∧
    gfrRaw 1 31 Sex.male false < gfrRaw 1 30 Sex.male false :=
  ⟨C7_age_decreasing.1 1 30 31 Sex.male false (by norm_num) (by norm_num) (by norm_num)
      (by norm_num) (by norm_num),
    C7_age_decreasing.2 1 30 31 Sex.male false (by norm_num) (by norm_num) (by norm_num)
      (by norm_num) (by norm_num)⟩

/-- C8: for every valid input the returned eGFR is an integer divided by 10, i.e.
has at most one digit after the decimal point. -/
theorem C8_one_decimal (c a : ℝ) (s : Sex) (b : Bool) (hc1 : 0.1 ≤ c) (hc2 : c ≤ 15)
    (ha1 : 18 ≤ a) (ha2 : a ≤ 120) :
    ∃ n : ℤ, compute c a s b = (n : ℝ) / 10 :=
  ⟨round (10 * gfrRaw c a s b), rfl⟩

theorem C8_one_decimal_witness :
    ∃ n : ℤ, compute 1.2 45 Sex.male false = (n : ℝ) / 10 :=
  C8_one_decimal 1.2 45 Sex.male false (by norm_num) (by norm_num) (by norm_num) (by norm_num)

/-- C9: the calculator is deterministic and side-effect-free - two invocations on
identical valid input tuples yield an identical result (in the embedding the
handler is a pure function, so this is definitional). -/
theorem C9_deterministic (c a c' a' : ℝ) (s s' : Sex) (b b' : Bool)
    (hc1 : 0.1 ≤ c) (hc2 : c ≤ 15) (ha1 : 18 ≤ a) (ha2 : a ≤ 120)
    (hceq : c = c') (haeq : a = a') (hseq : s = s') (hbeq : b = b') :
    compute c a s b = compute c' a' s' b' := by
  subst hceq haeq hseq hbeq
  rfl

theorem C9_deterministic_witness :
    compute 1 30 Sex.male false = compute 1 30 Sex.male false :=
  C9_deterministic 1 30 1 30 Sex.male Sex.male false false (by norm_num) (by norm_num)
    (by norm_num) (by norm_num) rfl rfl rfl rfl

/-- C10: the declared bounds are inclusive - requests with age exactly 18 or 120
and with serum creatinine exactly 0.1 or 15.0 pass validation and receive a
computed result. -/
theorem C10_inclusive_bounds :
    (∃ y, handle ⟨18, 1.2, "male", false⟩ = Except.ok y) ∧
    (∃ y, handle ⟨120, 1.2, "male", false⟩ = Except.ok y) ∧
    (∃ y, handle ⟨45, 0.1, "male", false⟩ = Except.ok y) ∧
    (∃ y, handle ⟨45, 15.0, "male", false⟩ = Except.ok y) :=
  ⟨handle_ok_of_inBounds _ (by norm_num [inBounds]),
    handle_ok_of_inBounds _ (by norm_num [inBounds]),
    handle_ok_of_inBounds _ (by norm_num [inBounds]),
    handle_ok_of_inBounds _ (by norm_num [inBounds])⟩
